import Mathlib

/-!
Verification of the Kerala Ayurveda RAG content pipeline.

Python strings are modelled as `List Char`; each agent's LLM call is a
function parameter, so every stage becomes a pure function of its inputs
and the model's response.  Definitions mirror the Python sources in
`src/agents` and `src/rag` statement by statement.
-/

/-- A Python string, modelled as its list of characters. -/
abbrev Str := List Char

/-- Coerce a Lean string literal to the `List Char` model. -/
def str (s : String) : Str := s.data

/-- Python `s.lower()` (ASCII-adequate, via `Char.toLower`). -/
def lower (s : Str) : Str := s.map Char.toLower

/-- Python `s.upper()` (ASCII-adequate, via `Char.toUpper`). -/
def upper (s : Str) : Str := s.map Char.toUpper

/-- Python `needle in hay`: substring membership, as a Boolean. -/
def pyIn (needle hay : Str) : Bool := decide (needle <:+: hay)

/-- Python `s.strip()`: drop whitespace from both ends. -/
def trim (s : Str) : Str :=
  ((s.dropWhile Char.isWhitespace).reverse.dropWhile Char.isWhitespace).reverse

/-- Python `s.lstrip(chars)`: drop leading characters belonging to `cs`. -/
def lstripChars (cs : List Char) (s : Str) : Str :=
  s.dropWhile (fun c => cs.contains c)

/-- Python `s.split(c)` for a single-character separator. -/
def splitChar (c : Char) : Str → List Str
  | [] => [[]]
  | h :: t =>
    if h = c then [] :: splitChar c t
    else
      match splitChar c t with
      | [] => [[h]]
      | x :: xs => (h :: x) :: xs

/-- Split at the first occurrence of `n`: returns the text before and after
it, or `none` when `n` does not occur. -/
def splitFirst (n : Str) : Str → Option (Str × Str)
  | [] => if n.isEmpty then some ([], []) else none
  | h :: t =>
    if n.isPrefixOf (h :: t) then some ([], (h :: t).drop n.length)
    else
      match splitFirst n t with
      | none => none
      | some (b, a) => some (h :: b, a)

/-- Fuel-driven worker for `splitSeq`. -/
def splitSeqAux (n : Str) : Nat → Str → List Str
  | 0, s => [s]
  | f + 1, s =>
    match splitFirst n s with
    | none => [s]
    | some (b, a) => b :: splitSeqAux n f a

/-- Python `s.split(sep)` for a non-empty multi-character separator:
left-to-right non-overlapping splits. -/
def splitSeq (n s : Str) : List Str := splitSeqAux n (s.length + 1) s

/-- Fuel-driven worker for `removeAll`. -/
def removeAllAux (n : Str) : Nat → Str → Str
  | 0, s => s
  | _ + 1, [] => []
  | f + 1, h :: t =>
    if n.isPrefixOf (h :: t) then removeAllAux n f (List.drop n.length (h :: t))
    else h :: removeAllAux n f t

/-- Python `s.replace(n, "")` for a non-empty marker `n`: remove every
left-to-right non-overlapping occurrence. -/
def removeAll (n s : Str) : Str := removeAllAux n (s.length + 1) s

/-- Python `sep.join(parts)`. -/
def joinSep (sep : Str) : List Str → Str
  | [] => []
  | [x] => x
  | x :: y :: xs => x ++ sep ++ joinSep sep (y :: xs)

/-- Last element of a list, with a default (Python `xs[-1]` under a
non-emptiness guarantee). -/
def lastD {α : Type} : List α → α → α
  | [], d => d
  | x :: xs, _ => lastD xs x

/-- A retrieved passage: `page_content` plus the two metadata keys the
pipeline reads (`doc_id`, `section_id`), each possibly absent. -/
structure Document where
  page_content : Str
  metadata_doc_id : Option Str
  metadata_section_id : Option Str
deriving DecidableEq

/-- Model of `Citation` from `src/models/schemas.py`. -/
structure Citation where
  doc_id : Str
  section_id : Str
  excerpt : Str
deriving DecidableEq

/-- Model of `FactCheckResult` from `src/models/schemas.py`. -/
structure FactCheckResult where
  claim : Str
  is_supported : Bool
  citation : Option Citation
  explanation : Str
deriving DecidableEq

/-- Model of `FactCheckerOutput` from `src/models/schemas.py`. -/
structure FactCheckerOutput where
  verified_draft : Str
  all_citations : List Citation
  fact_check_results : List FactCheckResult
  flagged_claims : List Str
deriving DecidableEq

/-- Model of `OutlineSection` from `src/models/schemas.py`. -/
structure OutlineSection where
  heading : Str
  key_points : List Str
deriving DecidableEq

/-- Model of `OutlineOutput` from `src/models/schemas.py`. -/
structure OutlineOutput where
  outline : List OutlineSection
  key_topics : List Str
deriving DecidableEq

/-- Model of `ToneEditorOutput` from `src/models/schemas.py`. -/
structure ToneEditorOutput where
  final_draft : Str
  tone_suggestions : List Str
  safety_disclaimer_added : Bool
deriving DecidableEq

/-! ## Fact-checker agent (`src/agents/fact_checker_agent.py`) -/

/-- Model of `FactCheckerAgent._parse_fact_check_response`: extract the verdict flag
and explanation from the raw LLM response. -/
def parse_fact_check_response (response : Str) : Bool × Str :=
  let response_upper := upper response
  let is_supported :=
    if pyIn (str "SUPPORTED") response_upper && !(pyIn (str "NOT_SUPPORTED") response_upper) then
      true
    else if pyIn (str "PARTIALLY_SUPPORTED") response_upper then
      true
    else
      false
  let explanation :=
    if pyIn (str "EXPLANATION:") response then
      trim (lastD (splitSeq (str "EXPLANATION:") response) response)
    else
      response
  (is_supported, explanation)

/-- Model of `FactCheckerAgent._verify_single_claim`, with the retriever and the LLM
chain passed in as functions (`llm claim context` is `chain.invoke`). -/
def verify_single_claim (retrieve : Str → List Document) (llm : Str → Str → Str)
    (claim : Str) : FactCheckResult :=
  match retrieve claim with
  | [] =>
    { claim := claim
      is_supported := false
      citation := none
      explanation := str "No relevant source material found" }
  | doc0 :: rest =>
    let docs := doc0 :: rest
    let context := joinSep (str "\n\n") (docs.map (·.page_content))
    let response := llm claim context
    let parsed := parse_fact_check_response response
    let citation :=
      if parsed.1 && !docs.isEmpty then
        some { doc_id := doc0.metadata_doc_id.getD (str "unknown")
               section_id := doc0.metadata_section_id.getD (str "unknown")
               excerpt := doc0.page_content.take 150 ++ str "..." }
      else
        none
    { claim := claim
      is_supported := parsed.1
      citation := citation
      explanation := parsed.2 }

/-- Model of `FactCheckerAgent._add_citations_to_draft`: an explicit no-op
placeholder in the source — returns the draft unchanged. -/
def add_citations_to_draft (draft : Str) (_results : List FactCheckResult) : Str :=
  draft

/-- The accumulating loop inside `FactCheckerAgent.verify_draft`:
`(fact_check_results, all_citations, flagged_claims)` built claim by claim. -/
def verify_loop (retrieve : Str → List Document) (llm : Str → Str → Str) :
    List FactCheckResult × List Citation × List Str → List Str →
    List FactCheckResult × List Citation × List Str
  | acc, [] => acc
  | (rs, cs, fs), claim :: restClaims =>
    let result := verify_single_claim retrieve llm claim
    let cs' := match result.citation with
      | some c => cs ++ [c]
      | none => cs
    let fs' := if !result.is_supported then fs ++ [claim] else fs
    verify_loop retrieve llm (rs ++ [result], cs', fs') restClaims

/-- Model of `FactCheckerAgent.verify_draft`. -/
def verify_draft (retrieve : Str → List Document) (llm : Str → Str → Str)
    (draft : Str) (claims : List Str) : FactCheckerOutput :=
  let acc := verify_loop retrieve llm ([], [], []) claims
  { verified_draft := add_citations_to_draft draft acc.1
    all_citations := acc.2.1
    fact_check_results := acc.1
    flagged_claims := acc.2.2 }

/-- The five prohibited phrases in `FactCheckerAgent.check_guardrails`. -/
def prohibited_phrases : List Str :=
  [str "miracle cure", str "guaranteed", str "cures", str "100% safe",
   str "scientifically proven"]

/-- Result dictionary of `FactCheckerAgent.check_guardrails`. -/
structure GuardrailReport where
  passed : Bool
  issues : List Str
deriving DecidableEq

/-- Model of `FactCheckerAgent.check_guardrails`: a pure policy check over the draft
and the flagged-claim count. -/
def check_guardrails (draft : Str) (flagged_claims : List Str) : GuardrailReport :=
  let issues :=
    if flagged_claims.length > 2 then
      [str "Too many unsupported claims: " ++ str (toString flagged_claims.length) ++
        str " (max 2)"]
    else
      []
  let issues := prohibited_phrases.foldl
    (fun acc phrase =>
      if pyIn (lower phrase) (lower draft) then
        acc ++ [str "Prohibited phrase found: '" ++ phrase ++ str "'"]
      else
        acc)
    issues
  { passed := issues.isEmpty, issues := issues }

/-! ## Writer agent (`src/agents/writer_agent.py`) -/

/-- The claim-indicator keyword list in `WriterAgent._extract_claims`. -/
def claim_indicators : List Str :=
  [str "traditionally used", str "helps", str "supports", str "may",
   str "contains", str "known for", str "benefits include",
   str "used in Ayurveda for"]

/-- Model of `WriterAgent._extract_claims`: split the draft on `'.'`, keep trimmed
non-empty sentences containing an indicator, cap at 10. -/
def extract_claims (draft : Str) : List Str :=
  let sentences := splitChar '.' draft
  let claims := sentences.foldl
    (fun acc sentence =>
      let s := trim sentence
      if s.isEmpty then acc
      else if claim_indicators.any (fun ind => pyIn (lower ind) (lower s)) then
        acc ++ [s ++ str "."]
      else acc)
    []
  claims.take 10

/-! ## Tone editor agent (`src/agents/tone_editor_agent.py`) -/

/-- The fixed safety-disclaimer paragraph in
`ToneEditorAgent._add_safety_disclaimer`. -/
def disclaimerText : Str :=
  str "\n\n---\n\n**Important Note:**\nThis article is for informational purposes and is not a substitute for medical advice, diagnosis, or treatment. Ayurvedic herbs and therapies may not be suitable for everyone. Individuals with existing medical conditions, those who are pregnant or nursing, or anyone taking prescription medications should consult their healthcare provider before starting any new supplement or therapy. Kerala Ayurveda encourages you to work with qualified practitioners for personalized guidance."

/-- Model of `ToneEditorAgent._add_safety_disclaimer`. -/
def add_safety_disclaimer (draft : Str) : Str := draft ++ disclaimerText

/-- Model of `ToneEditorAgent._parse_editor_response`: returns
`(edited_draft, suggestions, disclaimer_status)`. -/
def parse_editor_response (response original_draft : Str) : Str × List Str × Str :=
  let edited_draft :=
    if pyIn (str "EDITED_DRAFT:") response then
      let draft_section := (splitSeq (str "EDITED_DRAFT:") response).getD 1 []
      if pyIn (str "TONE_SUGGESTIONS:") draft_section then
        trim ((splitSeq (str "TONE_SUGGESTIONS:") draft_section).headD [])
      else
        trim draft_section
    else
      original_draft
  let suggestions :=
    if pyIn (str "TONE_SUGGESTIONS:") response then
      let sec0 := (splitSeq (str "TONE_SUGGESTIONS:") response).getD 1 []
      let sec :=
        if pyIn (str "SAFETY_DISCLAIMER_STATUS:") sec0 then
          (splitSeq (str "SAFETY_DISCLAIMER_STATUS:") sec0).headD []
        else
          sec0
      (splitChar '\n' sec).foldl
        (fun acc rawLine =>
          let line := trim rawLine
          if (str "-").isPrefixOf line || (str "•").isPrefixOf line then
            acc ++ [trim (lstripChars (str "-•") line)]
          else acc)
        []
    else
      []
  let disclaimer_status :=
    if pyIn (str "SAFETY_DISCLAIMER_STATUS:") response then
      trim ((splitChar '\n'
        ((splitSeq (str "SAFETY_DISCLAIMER_STATUS:") response).getD 1 [])).headD [])
    else
      str "UNKNOWN"
  (edited_draft, suggestions, disclaimer_status)

/-- Model of `ToneEditorAgent.edit_for_tone`, with the LLM passed in as a function
(`llm draft` is `chain.invoke`). -/
def edit_for_tone (llm : Str → Str) (draft : Str) : ToneEditorOutput :=
  let response := llm draft
  let parsed := parse_editor_response response draft
  if pyIn (str "MISSING") parsed.2.2 then
    { final_draft := add_safety_disclaimer parsed.1
      tone_suggestions := parsed.2.1
      safety_disclaimer_added := true }
  else
    { final_draft := parsed.1
      tone_suggestions := parsed.2.1
      safety_disclaimer_added := pyIn (str "PRESENT") parsed.2.2 }

/-! ## Outline agent (`src/agents/outline_agent.py`) -/

/-- The running state of the line loop in `OutlineAgent._parse_outline`:
`sections`, `current_section`, `current_points`, `key_topics`. -/
structure OutlineParseState where
  sections : List OutlineSection
  cur_head : Option Str
  cur_points : List Str
  key_topics : List Str
deriving DecidableEq

/-- One iteration of the line loop in `OutlineAgent._parse_outline`.
Python's `if current_section:` flush test is string truthiness, so an open
section whose heading stripped to the empty string is dropped, not
flushed. -/
def outlineStep (st : OutlineParseState) (rawLine : Str) : OutlineParseState :=
  let line := trim rawLine
  if line.isEmpty then st
  else if (str "SECTION:").isPrefixOf line then
    let sections :=
      match st.cur_head with
      | some h =>
        if h.isEmpty then st.sections
        else st.sections ++ [{ heading := h, key_points := st.cur_points }]
      | none => st.sections
    { sections := sections
      cur_head := some (trim (removeAll (str "SECTION:") line))
      cur_points := []
      key_topics := st.key_topics }
  else if (str "KEY_TOPICS:").isPrefixOf line then
    let topics_str := trim (removeAll (str "KEY_TOPICS:") line)
    { st with key_topics := (splitChar ',' topics_str).map trim }
  else if (str "-").isPrefixOf line || (str "•").isPrefixOf line then
    let point := trim (lstripChars (str "-•") line)
    if point.isEmpty then st
    else { st with cur_points := st.cur_points ++ [point] }
  else st

/-- The line-list core of `OutlineAgent._parse_outline`: fold the loop over
the lines, then flush the last open section — again only when its heading
is a non-empty (truthy) string. -/
def parse_outline_lines (lines : List Str) : OutlineOutput :=
  let st := lines.foldl outlineStep
    { sections := [], cur_head := none, cur_points := [], key_topics := [] }
  let sections :=
    match st.cur_head with
    | some h =>
      if h.isEmpty then st.sections
      else st.sections ++ [{ heading := h, key_points := st.cur_points }]
    | none => st.sections
  { outline := sections, key_topics := st.key_topics }

/-- Model of `OutlineAgent._parse_outline`: split the response on newlines and run
the line loop. -/
def parse_outline (response : Str) : OutlineOutput :=
  parse_outline_lines (splitChar '\n' response)

/-! ## Citation tracker (`src/rag/citation_tracker.py`) -/

/-- The indexed loop of `CitationTracker.prepare_context_with_markers`:
builds the marked context parts and the citation list. -/
def prepare_loop : Nat → List Document → List Str × List Citation
  | _, [] => ([], [])
  | i, doc :: rest =>
    let source_id := str "[SOURCE_" ++ str (toString (i + 1)) ++ str "]"
    let citation : Citation :=
      { doc_id := doc.metadata_doc_id.getD (str "unknown")
        section_id := doc.metadata_section_id.getD (str "unknown")
        excerpt :=
          if doc.page_content.length > 150 then doc.page_content.take 150 ++ str "..."
          else doc.page_content }
    let tail2 := prepare_loop (i + 1) rest
    ((source_id ++ str "\n" ++ doc.page_content ++ str "\n") :: tail2.1,
      citation :: tail2.2)

/-- Model of `CitationTracker.prepare_context_with_markers`. -/
def prepare_context_with_markers (documents : List Document) : Str × List Citation :=
  let parts := prepare_loop 0 documents
  (joinSep (str "\n---\n") parts.1, parts.2)

/-! ## Retriever (`src/rag/retriever.py`) -/

/-- The external vector store (ChromaDB behind LangChain), abstracted as a
similarity-search function from a query and a count to ranked passages. -/
structure VectorStore where
  search : Str → Nat → List Document

/-- The mutable fields of `KeralaAyurvedaRetriever` that `retrieve` reads:
`self.vectorstore` and `self.retriever`, both `None` until
`initialize_vectorstore` runs. -/
structure RetrieverState where
  vectorstore : Option VectorStore
  retriever_handle : Option (Str → List Document)

/-- Model of `KeralaAyurvedaRetriever.__init__`: both handles start as `None`. -/
def initial_retriever_state : RetrieverState :=
  { vectorstore := none, retriever_handle := none }

/-- Model of `KeralaAyurvedaRetriever.initialize_vectorstore`: installs the vector
store and a retriever handle fixed at `top_k`. -/
def initialize_vectorstore (_st : RetrieverState) (vs : VectorStore)
    (top_k : Nat) : RetrieverState :=
  { vectorstore := some vs
    retriever_handle := some (fun q => vs.search q top_k) }

/-- Model of `KeralaAyurvedaRetriever.retrieve`: raises `ValueError` (modelled as
`Except.error`) when the retriever handle is still `None`; with an explicit
`k` it re-derives a retriever from the vector store (the `none` sub-branch
models Python's `AttributeError` on a `None` vector store, unreachable
through the class API). -/
def retrieve_docs (st : RetrieverState) (query : Str) (k : Option Nat) :
    Except Str (List Document) :=
  match st.retriever_handle with
  | none => .error (str "Retriever not initialized. Call initialize_vectorstore() first.")
  | some r =>
    match k with
    | some kk =>
      match st.vectorstore with
      | some vs => .ok (vs.search query kk)
      | none => .error (str "AttributeError: vectorstore is None")
    | none => .ok (r query)

/-! ## Basic lemmas -/

/-- Fact: `pyIn` decides substring membership. -/
lemma pyIn_iff (n h : Str) : pyIn n h = true ↔ n <:+: h := by
  simp [pyIn]

/-- The result of `_verify_single_claim` carries the input claim verbatim. -/
lemma verify_single_claim_claim (r : Str → List Document) (l : Str → Str → Str)
    (c : Str) : (verify_single_claim r l c).claim = c := by
  unfold verify_single_claim
  split <;> rfl

/-- Characterisation of the `verify_draft` loop: results in input order,
citations of the supported results, flagged claims filtered in order. -/
lemma verify_loop_eq (r : Str → List Document) (l : Str → Str → Str)
    (claims : List Str) (rs : List FactCheckResult) (cs : List Citation)
    (fs : List Str) :
    verify_loop r l (rs, cs, fs) claims =
      (rs ++ claims.map (verify_single_claim r l),
       cs ++ (claims.map (verify_single_claim r l)).filterMap (·.citation),
       fs ++ claims.filter (fun c => !(verify_single_claim r l c).is_supported)) := by
  induction claims generalizing rs cs fs with
  | nil => simp [verify_loop]
  | cons c cl ih =>
    rw [verify_loop, ih]
    cases hcit : (verify_single_claim r l c).citation <;>
      cases hsup : (verify_single_claim r l c).is_supported <;>
        simp [hcit, hsup, List.filter_cons, List.filterMap_cons]

/-- C2: `verify_draft` returns one result per claim in input order (the
i-th result's claim is the i-th input claim), `flagged_claims` is exactly
the in-order sublist of claims whose result has `is_supported = false`,
and `verified_draft` is the input draft unchanged. -/
theorem verify_draft_shape (r : Str → List Document) (l : Str → Str → Str)
    (draft : Str) (claims : List Str) :
    (verify_draft r l draft claims).fact_check_results.map (·.claim) = claims ∧
    (verify_draft r l draft claims).fact_check_results.length = claims.length ∧
    (verify_draft r l draft claims).flagged_claims =
      claims.filter (fun c => !(verify_single_claim r l c).is_supported) ∧
    (verify_draft r l draft claims).verified_draft = draft := by
  have h := verify_loop_eq r l claims [] [] []
  refine ⟨?_, ?_, ?_, ?_⟩ <;>
    simp [verify_draft, add_citations_to_draft, h, List.map_map,
      Function.comp_def, verify_single_claim_claim]

/-- C4: the fact-check verdict is "supported" exactly when the uppercased
response contains `SUPPORTED` without containing `NOT_SUPPORTED`, or
contains `PARTIALLY_SUPPORTED`; in all other cases it is `false`. -/
theorem parse_fact_check_verdict_rule (response : Str) :
    (parse_fact_check_response response).1 = true ↔
      ((str "SUPPORTED" <:+: upper response ∧
          ¬ str "NOT_SUPPORTED" <:+: upper response) ∨
        str "PARTIALLY_SUPPORTED" <:+: upper response) := by
  by_cases h1 : str "SUPPORTED" <:+: upper response <;>
    by_cases h2 : str "NOT_SUPPORTED" <:+: upper response <;>
      by_cases h3 : str "PARTIALLY_SUPPORTED" <:+: upper response <;>
        simp [parse_fact_check_response, pyIn, h1, h2, h3]

/-- C5: a claim whose retrieval comes back empty is marked unsupported with
citation `None` and explanation "No relevant source material found"; when
retrieval is empty for every claim of a run, every result is unsupported
and the citation list of the output is empty. -/
theorem fact_check_no_sources (r : Str → List Document) (l : Str → Str → Str)
    (draft : Str) (claims : List Str) (claim : Str) :
    (r claim = [] →
      verify_single_claim r l claim =
        { claim := claim
          is_supported := false
          citation := none
          explanation := str "No relevant source material found" }) ∧
    ((∀ c ∈ claims, r c = []) →
      (∀ res ∈ (verify_draft r l draft claims).fact_check_results,
        res.is_supported = false) ∧
      (verify_draft r l draft claims).all_citations = []) := by
  have hsingle : ∀ c : Str, r c = [] →
      verify_single_claim r l c =
        { claim := c
          is_supported := false
          citation := none
          explanation := str "No relevant source material found" } := by
    intro c hc
    unfold verify_single_claim
    rw [hc]
  refine ⟨hsingle claim, fun hall => ⟨?_, ?_⟩⟩
  · intro res hres
    have h := verify_loop_eq r l claims [] [] []
    simp only [verify_draft, h, List.nil_append] at hres
    rcases List.mem_map.mp hres with ⟨c, hc, rfl⟩
    rw [hsingle c (hall c hc)]
  · have h := verify_loop_eq r l claims [] [] []
    simp only [verify_draft, h, List.nil_append]
    rw [List.filterMap_eq_nil_iff]
    intro res hres
    rcases List.mem_map.mp hres with ⟨c, hc, rfl⟩
    rw [hsingle c (hall c hc)]

/-- Witness for C5 at a concrete run whose retrieval is always empty. -/
theorem fact_check_no_sources_witness :
    verify_single_claim (fun _ => []) (fun _ _ => []) (str "a") =
      { claim := str "a"
        is_supported := false
        citation := none
        explanation := str "No relevant source material found" } ∧
    ((∀ res ∈ (verify_draft (fun _ => []) (fun _ _ => []) (str "d")
        [str "a"]).fact_check_results, res.is_supported = false) ∧
      (verify_draft (fun _ => []) (fun _ _ => []) (str "d")
        [str "a"]).all_citations = []) :=
  ⟨(fact_check_no_sources (fun _ => []) (fun _ _ => []) (str "d") [str "a"]
      (str "a")).1 rfl,
   (fact_check_no_sources (fun _ => []) (fun _ _ => []) (str "d") [str "a"]
      (str "a")).2 (fun _ _ => rfl)⟩

/-- The claim-extraction loop as a filter over the trimmed sentences. -/
lemma extract_loop_eq (sentences : List Str) (acc : List Str) :
    sentences.foldl
      (fun acc sentence =>
        let s := trim sentence
        if s.isEmpty then acc
        else if claim_indicators.any (fun ind => pyIn (lower ind) (lower s)) then
          acc ++ [s ++ str "."]
        else acc)
      acc =
      acc ++ ((sentences.map trim).filter
          (fun s => !s.isEmpty &&
            claim_indicators.any (fun ind => pyIn (lower ind) (lower s)))).map
        (fun s => s ++ str ".") := by
  induction sentences generalizing acc with
  | nil => simp
  | cons sen rest ih =>
    simp only [List.foldl_cons]
    split
    next he =>
      rw [ih]
      simp [List.filter_cons, he]
    next he =>
      simp only [Bool.not_eq_true] at he
      split
      next hk =>
        rw [ih]
        simp [List.filter_cons, he, hk]
      next hk =>
        simp only [Bool.not_eq_true] at hk
        rw [ih]
        simp [List.filter_cons, he, hk]

/-- C6: claim extraction keeps, in draft order and capped at 10, exactly the
non-empty trimmed period-split sentences containing a claim indicator
case-insensitively (with the period re-appended); on the fixed draft
"Ashwagandha helps with stress. The sky is blue." it extracts exactly
["Ashwagandha helps with stress."]. -/
theorem extract_claims_rule (draft : Str) :
    extract_claims draft =
      (((((splitChar '.' draft).map trim).filter
          (fun s => !s.isEmpty &&
            claim_indicators.any (fun ind => pyIn (lower ind) (lower s)))).map
        (fun s => s ++ str ".")).take 10) ∧
    extract_claims (str "Ashwagandha helps with stress. The sky is blue.") =
      [str "Ashwagandha helps with stress."] := by
  constructor
  · show (((splitChar '.' draft).foldl
        (fun acc sentence =>
          let s := trim sentence
          if s.isEmpty then acc
          else if claim_indicators.any (fun ind => pyIn (lower ind) (lower s)) then
            acc ++ [s ++ str "."]
          else acc)
        []).take 10) = _
    rw [extract_loop_eq]
    simp
  · decide

/-- The prohibited-phrase loop of `check_guardrails` as a `filterMap`. -/
lemma guardrail_loop_eq (draft : Str) (phrases : List Str) (init : List Str) :
    phrases.foldl
      (fun acc phrase =>
        if pyIn (lower phrase) (lower draft) then
          acc ++ [str "Prohibited phrase found: '" ++ phrase ++ str "'"]
        else acc)
      init =
      init ++ phrases.filterMap
        (fun phrase =>
          if pyIn (lower phrase) (lower draft) then
            some (str "Prohibited phrase found: '" ++ phrase ++ str "'")
          else none) := by
  induction phrases generalizing init with
  | nil => simp
  | cons p rest ih =>
    simp only [List.foldl_cons]
    split
    next hp =>
      rw [ih]
      simp [List.filterMap_cons, hp]
    next hp =>
      simp only [Bool.not_eq_true] at hp
      rw [ih]
      simp [List.filterMap_cons, hp]

/-- C3: `check_guardrails` fails exactly when more than two claims are
flagged or the draft case-insensitively contains one of the five prohibited
phrases, and the pass flag is equivalent to the issue list being empty
(the check is a total function: it reports, never raises). -/
theorem check_guardrails_rule (draft : Str) (flagged : List Str) :
    ((check_guardrails draft flagged).passed = false ↔
      (2 < flagged.length ∨
        ∃ p ∈ prohibited_phrases, lower p <:+: lower draft)) ∧
    ((check_guardrails draft flagged).passed = true ↔
      (check_guardrails draft flagged).issues = []) := by
  have hrep : (check_guardrails draft flagged).issues =
      (if 2 < flagged.length then
        [str "Too many unsupported claims: " ++ str (toString flagged.length) ++
          str " (max 2)"]
      else []) ++ prohibited_phrases.filterMap
        (fun phrase =>
          if pyIn (lower phrase) (lower draft) then
            some (str "Prohibited phrase found: '" ++ phrase ++ str "'")
          else none) := by
    simp only [check_guardrails]
    rw [guardrail_loop_eq]
  have hpass : (check_guardrails draft flagged).passed =
      (check_guardrails draft flagged).issues.isEmpty := by
    unfold check_guardrails
    rfl
  constructor
  · rw [hpass, hrep]
    by_cases hlen : 2 < flagged.length <;>
      simp [hlen, List.isEmpty_iff, List.filterMap_eq_nil_iff, pyIn]
  · rw [hpass, List.isEmpty_iff]

/-! ## Tone-editor theorems -/

/-- C8: when the parsed disclaimer status contains `MISSING` the fixed
disclaimer paragraph is appended and `safety_disclaimer_added` is `true`;
otherwise nothing is appended and the flag is `true` exactly when the
status contains `PRESENT`; in particular a `NEEDS_IMPROVEMENT` status
yields `added = false` with the draft unmodified. -/
theorem tone_disclaimer_status_rule (llm : Str → Str) (draft : Str) :
    (str "MISSING" <:+: (parse_editor_response (llm draft) draft).2.2 →
      (edit_for_tone llm draft).final_draft =
        (parse_editor_response (llm draft) draft).1 ++ disclaimerText ∧
      (edit_for_tone llm draft).safety_disclaimer_added = true) ∧
    (¬ str "MISSING" <:+: (parse_editor_response (llm draft) draft).2.2 →
      (edit_for_tone llm draft).final_draft =
        (parse_editor_response (llm draft) draft).1 ∧
      ((edit_for_tone llm draft).safety_disclaimer_added = true ↔
        str "PRESENT" <:+: (parse_editor_response (llm draft) draft).2.2)) ∧
    ((parse_editor_response (llm draft) draft).2.2 = str "NEEDS_IMPROVEMENT" →
      (edit_for_tone llm draft).safety_disclaimer_added = false ∧
      (edit_for_tone llm draft).final_draft =
        (parse_editor_response (llm draft) draft).1) := by
  refine ⟨?_, ?_, ?_⟩
  · intro hmiss
    have h : pyIn (str "MISSING") (parse_editor_response (llm draft) draft).2.2 =
        true := (pyIn_iff _ _).mpr hmiss
    simp [edit_for_tone, add_safety_disclaimer, h]
  · intro hmiss
    have h : pyIn (str "MISSING") (parse_editor_response (llm draft) draft).2.2 =
        false := by
      simp [pyIn, hmiss]
    simp [edit_for_tone, h, pyIn_iff]
  · intro hst
    have h1 : pyIn (str "MISSING") (parse_editor_response (llm draft) draft).2.2 =
        false := by
      rw [hst]; decide
    have h2 : pyIn (str "PRESENT") (parse_editor_response (llm draft) draft).2.2 =
        false := by
      rw [hst]; decide
    simp [edit_for_tone, h1, h2]

/-- Witness for C8: a response whose status is `MISSING` gets the
disclaimer appended and the flag set. -/
theorem tone_disclaimer_status_rule_witness :
    (edit_for_tone (fun _ => str "SAFETY_DISCLAIMER_STATUS: MISSING")
        (str "d")).final_draft =
      (parse_editor_response (str "SAFETY_DISCLAIMER_STATUS: MISSING")
        (str "d")).1 ++ disclaimerText ∧
    (edit_for_tone (fun _ => str "SAFETY_DISCLAIMER_STATUS: MISSING")
        (str "d")).safety_disclaimer_added = true :=
  (tone_disclaimer_status_rule (fun _ => str "SAFETY_DISCLAIMER_STATUS: MISSING")
    (str "d")).1 (by decide)

set_option maxRecDepth 8192 in
/-- C7 counterexample: a response carrying status `PRESENT` and no
`EDITED_DRAFT:` marker, on the non-empty draft "x", records
`safety_disclaimer_added = true` while the returned final draft is strictly
shorter than the fixed disclaimer text — refuting the claim that a recorded
`true` flag implies the final draft is at least as long as the disclaimer. -/
theorem tone_disclaimer_added_counterexample :
    (edit_for_tone (fun _ => str "SAFETY_DISCLAIMER_STATUS: PRESENT")
        (str "x")).safety_disclaimer_added = true ∧
    (edit_for_tone (fun _ => str "SAFETY_DISCLAIMER_STATUS: PRESENT")
        (str "x")).final_draft.length < disclaimerText.length ∧
    str "x" ≠ [] := by
  decide

/-- C7 as amended: the final draft is at least as long as the disclaimer
text whenever the disclaimer is actually appended (status contains
`MISSING`), and a response with none of the three recognised markers leaves
the original draft untouched, so a non-empty input yields a non-empty final
draft. -/
theorem tone_editor_fallback_rule (llm : Str → Str) (draft : Str) :
    (str "MISSING" <:+: (parse_editor_response (llm draft) draft).2.2 →
      disclaimerText.length ≤ (edit_for_tone llm draft).final_draft.length ∧
      (edit_for_tone llm draft).safety_disclaimer_added = true) ∧
    ((¬ str "EDITED_DRAFT:" <:+: llm draft) →
      (¬ str "TONE_SUGGESTIONS:" <:+: llm draft) →
      (¬ str "SAFETY_DISCLAIMER_STATUS:" <:+: llm draft) →
      (edit_for_tone llm draft).final_draft = draft ∧
      (draft ≠ [] → (edit_for_tone llm draft).final_draft ≠ [])) := by
  constructor
  · intro hmiss
    have h : pyIn (str "MISSING") (parse_editor_response (llm draft) draft).2.2 =
        true := (pyIn_iff _ _).mpr hmiss
    simp [edit_for_tone, add_safety_disclaimer, h]
  · intro h1 h2 h3
    have e1 : pyIn (str "EDITED_DRAFT:") (llm draft) = false := by simp [pyIn, h1]
    have e3 : pyIn (str "SAFETY_DISCLAIMER_STATUS:") (llm draft) = false := by
      simp [pyIn, h3]
    have hparsed : (parse_editor_response (llm draft) draft).1 = draft ∧
        (parse_editor_response (llm draft) draft).2.2 = str "UNKNOWN" := by
      constructor <;> · simp only [parse_editor_response, e1, e3] ; rfl
    have hm : pyIn (str "MISSING")
        (parse_editor_response (llm draft) draft).2.2 = false := by
      rw [hparsed.2]; decide
    constructor
    · simp [edit_for_tone, hm, hparsed.1]
    · intro hne
      simp [edit_for_tone, hm, hparsed.1, hne]

/-- Witness for C7's theorem: a marker-free response leaves the concrete
draft "x" unchanged. -/
theorem tone_editor_fallback_rule_witness :
    (edit_for_tone (fun _ => str "hello") (str "x")).final_draft = str "x" ∧
    (str "x" ≠ [] →
      (edit_for_tone (fun _ => str "hello") (str "x")).final_draft ≠ []) :=
  (tone_editor_fallback_rule (fun _ => str "hello") (str "x")).2
    (by decide) (by decide) (by decide)

/-! ## Citation-excerpt theorems -/

/-- The excerpts produced by the `prepare_context_with_markers` loop, for
any starting index. -/
lemma prepare_loop_excerpts (docs : List Document) (i : Nat) :
    (prepare_loop i docs).2.map (·.excerpt) =
      docs.map (fun doc =>
        if doc.page_content.length > 150 then doc.page_content.take 150 ++ str "..."
        else doc.page_content) := by
  induction docs generalizing i with
  | nil => rfl
  | cons d rest ih => simp [prepare_loop, ih]

/-- C1 counterexample: a supported claim whose sole retrieved passage has
content "abc" (3 characters, well under 150) yields a fact-check citation
whose excerpt is "abc..." rather than the unmodified content — refuting the
claim that content of at most 150 characters is excerpted unmodified by the
fact-check stage. -/
theorem fact_check_excerpt_counterexample :
    (verify_single_claim
        (fun _ => [{ page_content := str "abc"
                     metadata_doc_id := some (str "doc1")
                     metadata_section_id := some (str "sec1") }])
        (fun _ _ => str "VERDICT: SUPPORTED") (str "claim")).citation =
      some { doc_id := str "doc1", section_id := str "sec1",
             excerpt := str "abc..." } ∧
    (str "abc").length ≤ 150 ∧
    str "abc..." ≠ str "abc" := by
  decide

/-- C1 as amended: every citation built by the fact-check stage has as its
excerpt the first 150 characters of the first retrieved passage's content
followed by the ellipsis marker, regardless of the content's length; the
conditional behaviour — truncate-with-ellipsis only above 150 characters,
otherwise the unmodified content — belongs to the citation tracker's
`prepare_context_with_markers`. -/
theorem fact_check_excerpt_rule :
    (∀ (r : Str → List Document) (l : Str → Str → Str) (claim : Str)
        (d : Document) (ds : List Document) (cit : Citation),
      r claim = d :: ds →
      (verify_single_claim r l claim).citation = some cit →
      cit.excerpt = d.page_content.take 150 ++ str "...") ∧
    (∀ docs : List Document,
      (prepare_context_with_markers docs).2.map (·.excerpt) =
        docs.map (fun doc =>
          if doc.page_content.length > 150 then
            doc.page_content.take 150 ++ str "..."
          else doc.page_content)) := by
  constructor
  · intro r l claim d ds cit hr hc
    unfold verify_single_claim at hc
    rw [hr] at hc
    simp only at hc
    split at hc
    · cases hc
      rfl
    · cases hc
  · intro docs
    show (prepare_loop 0 docs).2.map (·.excerpt) = _
    exact prepare_loop_excerpts docs 0

/-- Witness for C1's amended theorem at the concrete passage "abc". -/
theorem fact_check_excerpt_rule_witness :
    (Citation.mk (str "doc1") (str "sec1") (str "abc...")).excerpt =
      (str "abc").take 150 ++ str "..." :=
  fact_check_excerpt_rule.1
    (fun _ => [{ page_content := str "abc"
                 metadata_doc_id := some (str "doc1")
                 metadata_section_id := some (str "sec1") }])
    (fun _ _ => str "VERDICT: SUPPORTED") (str "claim")
    { page_content := str "abc"
      metadata_doc_id := some (str "doc1")
      metadata_section_id := some (str "sec1") } []
    (Citation.mk (str "doc1") (str "sec1") (str "abc...")) rfl (by decide)

/-! ## Retriever theorem -/

/-- C10: calling `retrieve` on a retriever whose vector index has not been
initialized fails with the uninitialized-store error for every query and
every count, and after `initialize_vectorstore` the same call returns a
passage list instead of raising. -/
theorem retrieve_initialization_rule :
    (∀ (q : Str) (k : Option Nat),
      retrieve_docs initial_retriever_state q k =
        .error (str "Retriever not initialized. Call initialize_vectorstore() first.")) ∧
    (∀ (st : RetrieverState) (vs : VectorStore) (top_k : Nat) (q : Str)
        (k : Option Nat),
      ∃ docs, retrieve_docs (initialize_vectorstore st vs top_k) q k = .ok docs) := by
  constructor
  · intro q k
    rfl
  · intro st vs top_k q k
    cases k with
    | none => exact ⟨vs.search q top_k, rfl⟩
    | some kk => exact ⟨vs.search q kk, rfl⟩

/-! ## Outline-parsing theorems -/

/-- A line that (after stripping) opens a new section. -/
def isSectionLine (l : Str) : Bool := (str "SECTION:").isPrefixOf (trim l)

/-- A line that (after stripping) carries the key-topics list. -/
def isTopicsLine (l : Str) : Bool := (str "KEY_TOPICS:").isPrefixOf (trim l)

/-- The heading the parser derives from a section line: every occurrence of
the `SECTION:` marker removed, then stripped. -/
def headingOf (l : Str) : Str := trim (removeAll (str "SECTION:") (trim l))

/-- The topic list the parser derives from a key-topics line: marker
occurrences removed, stripped, comma-split, fields stripped. -/
def topicsOf (l : Str) : List Str :=
  (splitChar ',' (trim (removeAll (str "KEY_TOPICS:") (trim l)))).map trim

/-- The key point a non-section line contributes, if any: bullet lines with
a non-empty point after stripping the bullet characters. -/
def bulletOf (l : Str) : Option Str :=
  let t := trim l
  if t.isEmpty then none
  else if (str "KEY_TOPICS:").isPrefixOf t then none
  else if (str "-").isPrefixOf t || (str "•").isPrefixOf t then
    let point := trim (lstripChars (str "-•") t)
    if point.isEmpty then none else some point
  else none

/-- Effect of one parser step on a non-section line: sections and the open
heading are untouched, the line's bullet point (if any) is appended, and a
key-topics line overwrites the topic list. -/
lemma outlineStep_no_section (l : Str) (hl : isSectionLine l = false)
    (st : OutlineParseState) :
    outlineStep st l =
      { st with cur_points := st.cur_points ++ (bulletOf l).toList,
                key_topics := if isTopicsLine l then topicsOf l else st.key_topics } := by
  unfold isSectionLine at hl
  simp only [outlineStep]
  split
  next h0 =>
    have htl : trim l = [] := by simpa using h0
    have ht : isTopicsLine l = false := by
      unfold isTopicsLine
      rw [htl]
      decide
    have hb : bulletOf l = none := by
      simp [bulletOf, htl]
    rw [ht, hb]
    simp
  next h0 =>
    split
    next h1 =>
      rw [hl] at h1
      cases h1
    next h1 =>
      split
      next h2 =>
        have ht : isTopicsLine l = true := h2
        have hb : bulletOf l = none := by
          simp only [Bool.not_eq_true] at h0
          simp [bulletOf, h0, h2]
        rw [ht, hb]
        simp [topicsOf]
      next h2 =>
        split
        next h3 =>
          simp only [Bool.not_eq_true] at h0 h2
          have ht : isTopicsLine l = false := by
            unfold isTopicsLine
            exact h2
          split
          next h4 =>
            have hb : bulletOf l = none := by
              simp [bulletOf, h0, h2, h3, h4]
            rw [ht, hb]
            simp
          next h4 =>
            simp only [Bool.not_eq_true, List.isEmpty_eq_false] at h4
            have hb : bulletOf l =
                some (trim (lstripChars (str "-•") (trim l))) := by
              simp [bulletOf, h0, h2, h3, h4]
            rw [ht, hb]
            simp
        next h3 =>
          simp only [Bool.not_eq_true] at h0 h2 h3
          have ht : isTopicsLine l = false := by
            unfold isTopicsLine
            exact h2
          have hb : bulletOf l = none := by
            simp [bulletOf, h0, h2, h3]
          rw [ht, hb]
          simp

/-- Fact: `lastD` over an append takes the default from the left part. -/
lemma lastD_append {α : Type} (xs ys : List α) (d : α) :
    lastD (xs ++ ys) d = lastD ys (lastD xs d) := by
  induction xs generalizing d with
  | nil => rfl
  | cons x xs ih =>
    show lastD (xs ++ ys) x = lastD ys (lastD xs x)
    exact ih x

/-- Folding the parser over a run of non-section lines: sections and the
open heading are unchanged, bullets accumulate in order, and the last
key-topics line (if any) determines the topic list. -/
lemma fold_no_section (p : List Str) (hp : ∀ l ∈ p, isSectionLine l = false)
    (st : OutlineParseState) :
    p.foldl outlineStep st =
      { st with cur_points := st.cur_points ++ p.filterMap bulletOf,
                key_topics :=
                  lastD ((p.filter isTopicsLine).map topicsOf) st.key_topics } := by
  induction p generalizing st with
  | nil => simp [lastD]
  | cons l p' ih =>
    have hl := hp l (List.mem_cons_self l p')
    rw [List.foldl_cons, outlineStep_no_section l hl st,
      ih (fun x hx => hp x (List.mem_cons_of_mem l hx))]
    cases hb : bulletOf l <;> cases ht : isTopicsLine l <;>
      simp [hb, ht, List.filterMap_cons, List.filter_cons, lastD,
        List.append_assoc]

/-- Effect of one parser step on a section line: the open section is
flushed when its heading is truthy (non-empty), dropped when it stripped to
the empty string, a new section opens with the marker-stripped heading, and
the topic list is untouched. -/
lemma outlineStep_section (l : Str) (hl : isSectionLine l = true)
    (st : OutlineParseState) :
    outlineStep st l =
      { sections := st.sections ++
          (match st.cur_head with
           | some h =>
             if h.isEmpty then []
             else [{ heading := h, key_points := st.cur_points }]
           | none => []),
        cur_head := some (headingOf l),
        cur_points := [],
        key_topics := st.key_topics } := by
  unfold isSectionLine at hl
  have hne : (trim l).isEmpty = false := by
    cases htl : trim l with
    | nil =>
      rw [htl] at hl
      exact absurd hl (by decide)
    | cons c cs => rfl
  obtain ⟨secs, ch, pts, tps⟩ := st
  cases ch with
  | none => simp [outlineStep, hne, hl, headingOf]
  | some h =>
    by_cases hh : h.isEmpty <;> simp [outlineStep, hne, hl, headingOf, hh]

/-- A section line is never a key-topics line: the two markers are
incompatible prefixes. -/
lemma section_not_topics (l : Str) (h : isSectionLine l = true) :
    isTopicsLine l = false := by
  cases hval : isTopicsLine l with
  | false => rfl
  | true =>
    exfalso
    unfold isSectionLine at h
    unfold isTopicsLine at hval
    have h1 : str "SECTION:" <+: trim l := by simpa using h
    have h2 : str "KEY_TOPICS:" <+: trim l := by simpa using hval
    have h3 : str "SECTION:" <+: str "KEY_TOPICS:" :=
      List.prefix_of_prefix_length_le h1 h2 (by decide)
    exact absurd h3 (by decide)

/-- C9 as amended: a response whose stripped lines contain exactly three
`SECTION:` lines and exactly one `KEY_TOPICS:` line, where each section
line's heading — the line with the marker occurrences removed and
trimmed — is non-empty, parses to exactly those three sections in source
order with those headings, each key-point list the bullet lines between
that section line and the next, and the topics the comma-split trimmed
fields of the marker-stripped `KEY_TOPICS:` line (a section whose heading
strips to the empty string is dropped at the flush, so the non-emptiness
provisos are needed); unrecognised lines are ignored without error, and a
response with no section line yields an empty outline. -/
theorem parse_outline_rule :
    (∀ (response : Str) (p0 p1 p2 p3 : List Str) (s1 s2 s3 kt : Str),
      splitChar '\n' response = p0 ++ s1 :: (p1 ++ s2 :: (p2 ++ s3 :: p3)) →
      isSectionLine s1 = true → isSectionLine s2 = true →
      isSectionLine s3 = true →
      headingOf s1 ≠ [] → headingOf s2 ≠ [] → headingOf s3 ≠ [] →
      (∀ l ∈ p0, isSectionLine l = false) →
      (∀ l ∈ p1, isSectionLine l = false) →
      (∀ l ∈ p2, isSectionLine l = false) →
      (∀ l ∈ p3, isSectionLine l = false) →
      (splitChar '\n' response).filter isTopicsLine = [kt] →
      parse_outline response =
        { outline := [{ heading := headingOf s1, key_points := p1.filterMap bulletOf },
                      { heading := headingOf s2, key_points := p2.filterMap bulletOf },
                      { heading := headingOf s3, key_points := p3.filterMap bulletOf }],
          key_topics := topicsOf kt }) ∧
    (∀ response : Str,
      (∀ l ∈ splitChar '\n' response, isSectionLine l = false) →
      (parse_outline response).outline = []) ∧
    (∀ (ls1 ls2 : List Str) (junk : Str),
      isSectionLine junk = false → isTopicsLine junk = false →
      bulletOf junk = none →
      parse_outline_lines (ls1 ++ junk :: ls2) = parse_outline_lines (ls1 ++ ls2)) := by
  refine ⟨?_, ?_, ?_⟩
  · intro response p0 p1 p2 p3 s1 s2 s3 kt hsplit h1 h2 h3 hn1 hn2 hn3 hp0 hp1 hp2 hp3 hkt
    have e1 := section_not_topics s1 h1
    have e2 := section_not_topics s2 h2
    have e3 := section_not_topics s3 h3
    have hcat : p0.filter isTopicsLine ++
        (p1.filter isTopicsLine ++
          (p2.filter isTopicsLine ++ p3.filter isTopicsLine)) = [kt] := by
      rw [hsplit] at hkt
      simpa [List.filter_append, List.filter_cons, e1, e2, e3] using hkt
    have htop : lastD ((p3.filter isTopicsLine).map topicsOf)
        (lastD ((p2.filter isTopicsLine).map topicsOf)
          (lastD ((p1.filter isTopicsLine).map topicsOf)
            (lastD ((p0.filter isTopicsLine).map topicsOf) []))) = topicsOf kt := by
      have hl : lastD ((p0.filter isTopicsLine ++
          (p1.filter isTopicsLine ++
            (p2.filter isTopicsLine ++ p3.filter isTopicsLine))).map topicsOf)
          ([] : List Str) = topicsOf kt := by
        rw [hcat]
        rfl
      simpa [List.map_append, lastD_append] using hl
    simp only [parse_outline, parse_outline_lines]
    rw [hsplit, List.foldl_append, fold_no_section p0 hp0, List.foldl_cons,
      outlineStep_section s1 h1, List.foldl_append, fold_no_section p1 hp1,
      List.foldl_cons, outlineStep_section s2 h2, List.foldl_append,
      fold_no_section p2 hp2, List.foldl_cons, outlineStep_section s3 h3,
      fold_no_section p3 hp3]
    simp [htop, hn1, hn2, hn3]
  · intro response hall
    simp only [parse_outline, parse_outline_lines]
    rw [fold_no_section _ hall]
  · intro ls1 ls2 junk hs htop hb
    have hstep : ∀ st, outlineStep st junk = st := by
      intro st
      rw [outlineStep_no_section junk hs st]
      simp [hb, htop]
    simp only [parse_outline_lines, List.foldl_append, List.foldl_cons, hstep]

set_option maxRecDepth 8192 in
/-- C9 counterexample, refuting the claim on two counts.  First, the
response "SECTION: A SECTION: B\nSECTION: C\nSECTION: D\nKEY_TOPICS: t"
has exactly three section lines and one key-topics line, yet the first
parsed heading is "A  B" — the line with *every* `SECTION:` occurrence
removed — not the text after its `SECTION:` marker ("A SECTION: B",
stripped or not).  Second, the response
"SECTION:\nSECTION: B\nSECTION: C\nKEY_TOPICS: t" also has exactly three
section lines and one key-topics line, yet parsing returns only two
sections: the bare `SECTION:` line opens a section whose heading strips to
the empty string, and the flush test (Python string truthiness) drops it. -/
theorem parse_outline_heading_counterexample :
    (((splitChar '\n'
        (str "SECTION: A SECTION: B\nSECTION: C\nSECTION: D\nKEY_TOPICS: t")).filter
      isSectionLine).length = 3 ∧
    (splitChar '\n'
        (str "SECTION: A SECTION: B\nSECTION: C\nSECTION: D\nKEY_TOPICS: t")).filter
      isTopicsLine = [str "KEY_TOPICS: t"] ∧
    (parse_outline
        (str "SECTION: A SECTION: B\nSECTION: C\nSECTION: D\nKEY_TOPICS: t")).outline.map
      (fun s => s.heading) = [str "A  B", str "C", str "D"] ∧
    str "A  B" ≠ str "A SECTION: B" ∧
    str "A  B" ≠ str " A SECTION: B") ∧
    (((splitChar '\n'
        (str "SECTION:\nSECTION: B\nSECTION: C\nKEY_TOPICS: t")).filter
      isSectionLine).length = 3 ∧
    (splitChar '\n'
        (str "SECTION:\nSECTION: B\nSECTION: C\nKEY_TOPICS: t")).filter
      isTopicsLine = [str "KEY_TOPICS: t"] ∧
    (parse_outline
        (str "SECTION:\nSECTION: B\nSECTION: C\nKEY_TOPICS: t")).outline.map
      (fun s => s.heading) = [str "B", str "C"] ∧
    (parse_outline
        (str "SECTION:\nSECTION: B\nSECTION: C\nKEY_TOPICS: t")).outline.length = 2) := by
  decide

set_option maxRecDepth 8192 in
/-- Witness for C9's theorem on a concrete well-formed response with three
sections and a key-topics line. -/
theorem parse_outline_rule_witness :
    parse_outline
      (str "SECTION: Intro\n- point1\n- point2\nSECTION: Body\n- point3\nSECTION: End\nKEY_TOPICS: a, b, c") =
      { outline :=
          [{ heading := headingOf (str "SECTION: Intro"),
             key_points := [str "- point1", str "- point2"].filterMap bulletOf },
           { heading := headingOf (str "SECTION: Body"),
             key_points := [str "- point3"].filterMap bulletOf },
           { heading := headingOf (str "SECTION: End"),
             key_points := [str "KEY_TOPICS: a, b, c"].filterMap bulletOf }],
        key_topics := topicsOf (str "KEY_TOPICS: a, b, c") } :=
  parse_outline_rule.1
    (str "SECTION: Intro\n- point1\n- point2\nSECTION: Body\n- point3\nSECTION: End\nKEY_TOPICS: a, b, c")
    [] [str "- point1", str "- point2"] [str "- point3"]
    [str "KEY_TOPICS: a, b, c"]
    (str "SECTION: Intro") (str "SECTION: Body") (str "SECTION: End")
    (str "KEY_TOPICS: a, b, c")
    (by decide) (by decide) (by decide) (by decide) (by decide) (by decide)
    (by decide) (by decide) (by decide) (by decide) (by decide) (by decide)
